import Mathlib

/-!
Verification of the availability / recurrence / booking engine of the
professional-scheduling platform (src/calendar_app/main.py).

Shallow embedding conventions:
* Instants (Python `datetime`) are modelled as `Int` minutes since the Unix
  epoch 1970-01-01 00:00.  `dt.date()` is `t.ediv 1440` (floor division,
  matching Python `//`) and `dt.time()` is `t.emod 1440` (matching Python `%`
  on a positive modulus).  All source arithmetic is naive (no timezones), and
  every quantity appearing in the claims is minute-aligned, so minute
  granularity is faithful.
* Calendar dates (Python `date`) are `Int` day numbers since 1970-01-01;
  `daysFromCivil`/`civilFromDays` convert to and from (year, month, day)
  with the standard proleptic-Gregorian algorithm.
* SQLAlchemy rows are structures; a query is a `List.filter`/`List.find?`
  over the table list, preserving insertion order (the source issues no
  ORDER BY except where noted).  The session is created with
  `autoflush=False`, so reads inside a request see only committed rows;
  pending `db.add` calls become visible at `db.commit()`.
* Python truthiness is modelled explicitly where the source relies on it
  (`if not email`, `if exclude_event_id`, `if recurrence_rule.byweekday`,
  `or` defaults, empty-string checks on override fields).
* Floating-point confidence weights are modelled in `ℚ`; the claims proved
  about them are branch/product identities that are representation
  independent (both sides multiply the identical machine values in the
  identical order).
-/

namespace Sched

/-! ## Temporal primitives -/

/-- Day number since 1970-01-01 of a civil (proleptic Gregorian) date.
Standard days-from-civil algorithm. -/
def daysFromCivil (y m d : Int) : Int :=
  let y2 := if m ≤ 2 then y - 1 else y
  let era := y2.ediv 400
  let yoe := y2.emod 400
  let mp := if m > 2 then m - 3 else m + 9
  let doy := (153 * mp + 2).ediv 5 + d - 1
  let doe := yoe * 365 + yoe.ediv 4 - yoe.ediv 100 + doy
  era * 146097 + doe - 719468

/-- Civil date (year, month, day) of a day number since 1970-01-01. -/
def civilFromDays (z : Int) : Int × Int × Int :=
  let z2 := z + 719468
  let era := z2.ediv 146097
  let doe := z2.emod 146097
  let yoe := (doe - doe.ediv 1460 + doe.ediv 36524 - doe.ediv 146096).ediv 365
  let y := yoe + era * 400
  let doy := doe - (365 * yoe + yoe.ediv 4 - yoe.ediv 100)
  let mp := (5 * doy + 2).ediv 153
  let d := doy - (153 * mp + 2).ediv 5 + 1
  let m := if mp < 10 then mp + 3 else mp - 9
  (if m ≤ 2 then y + 1 else y, m, d)

/-- Python `datetime.weekday()`: 0 = Monday .. 6 = Sunday.
1970-01-01 was a Thursday (weekday 3). -/
def pyWeekday (z : Int) : Int := (z + 3).emod 7

/-- Index of the Monday-started week containing day `z` (dateutil default
`wkst = MO`), used for WEEKLY interval stepping. -/
def weekIndex (z : Int) : Int := (z + 3).ediv 7

/-- Minutes-since-epoch of a civil date at hour:minute. -/
def minutesAt (y m d hh mi : Int) : Int := daysFromCivil y m d * 1440 + hh * 60 + mi

/-! ## Data model (rows of the five core tables, claim-relevant columns).
Columns never read by any modelled function (colors, locations, audit
timestamps, ...) are elided. -/

structure CalendarEvent where
  id : Nat
  specialist_id : Nat
  title : String
  description : String
  start_datetime : Int
  end_datetime : Int
  event_type : String
  status : String
  is_active : Bool
  buffer_before : Int
  buffer_after : Int
  is_recurring : Bool
  recurring_event_id : Option String
  original_start : Option Int
deriving Repr, DecidableEq

structure EventException where
  event_id : Nat
  exception_date : Int
  exception_type : String
  new_start_datetime : Option Int
  new_end_datetime : Option Int
  new_title : Option String
  new_description : Option String
deriving Repr, DecidableEq

structure AvailabilitySlotRow where
  specialist_id : Nat
  date : Int
  start_time : Int
  end_time : Int
  is_available : Bool
deriving Repr, DecidableEq

structure Service where
  id : Nat
  specialist_id : Nat
  duration : Int
deriving Repr, DecidableEq

structure BookingRow where
  specialist_id : Nat
  service_id : Nat
  consumer_id : Option Nat
  client_name : String
  client_email : String
  client_phone : Option String
  date : Int
  start_time : Int
  end_time : Int
  status : String
  notes : Option String
deriving Repr, DecidableEq

structure ConsumerRow where
  id : Nat
  name : String
  email : Option String
  phone : Option String
deriving Repr, DecidableEq

structure ReferralRow where
  consumer_id : Nat
  specialist_id : Nat
  referred_by_specialist_id : Option Nat
  referred_by_workplace_id : Option Nat
deriving Repr, DecidableEq

structure ClientProfileRow where
  specialist_id : Nat
  consumer_id : Nat
  score : Int
deriving Repr, DecidableEq

structure WorkingHoursRow where
  specialist_id : Nat
  day_of_week : Int
  time_ranges : List (Option Int × Option Int)
  is_working_day : Bool
  is_active : Bool
deriving Repr, DecidableEq

structure SchedulingPreferencesRow where
  specialist_id : Nat
  is_active : Bool
  min_booking_notice : Int
  slot_increment : Int
deriving Repr, DecidableEq

/-- The persisted state: the tables read and written by the engine. -/
structure State where
  specialists : List Nat
  services : List Service
  availability_slots : List AvailabilitySlotRow
  calendar_events : List CalendarEvent
  bookings : List BookingRow
  consumers : List ConsumerRow
  referrals : List ReferralRow
  client_profiles : List ClientProfileRow
  working_hours : List WorkingHoursRow
  scheduling_preferences : List SchedulingPreferencesRow
deriving Repr, DecidableEq

/-! ## Conflict detector (`has_calendar_conflict`, main.py 495-528) -/

/-- Model of `has_calendar_conflict`: the query filters the specialist's active events
by RAW interval overlap (`start_datetime < end && end_datetime > start`),
then the loop re-tests the fetched candidates with buffer padding.
`if exclude_event_id:` is a truthiness test, modelled by `getD 0 == 0`. -/
def has_calendar_conflict (events : List CalendarEvent) (specialist_id : Nat)
    (start_datetime end_datetime : Int) (exclude_event_id : Option Nat) : Bool :=
  let conflicting_events := events.filter (fun ev =>
    ev.specialist_id == specialist_id && ev.is_active &&
    ev.start_datetime < end_datetime && ev.end_datetime > start_datetime &&
    (exclude_event_id.getD 0 == 0 || ev.id != exclude_event_id.getD 0))
  conflicting_events.any (fun ev =>
    ev.start_datetime - ev.buffer_before < end_datetime &&
    ev.end_datetime + ev.buffer_after > start_datetime)

/-! ## Exception overlay (`apply_recurring_exceptions`, main.py 415-469) -/

/-- Field overlay for a `modified`/`moved` exception.  The source guards
each assignment with Python truthiness: a non-None datetime is always
truthy, but an empty override string is falsy and is NOT applied. -/
def overlayException (x : EventException) (e : CalendarEvent) : CalendarEvent :=
  let e1 := match x.new_start_datetime with
    | some v => { e with start_datetime := v }
    | none => e
  let e2 := match x.new_end_datetime with
    | some v => { e1 with end_datetime := v }
    | none => e1
  let e3 := match x.new_title with
    | some t => if t == "" then e2 else { e2 with title := t }
    | none => e2
  match x.new_description with
  | some dsc => if dsc == "" then e3 else { e3 with description := dsc }
  | none => e3

/-- Model of `apply_recurring_exceptions`: for each event take the first exception for
that event whose `exception_date` equals the event's own calendar date;
`cancelled` drops the event, `modified`/`moved` overlays truthy override
fields, any other kind (and no match) passes the event through.  The source
groups the queried exceptions by event id preserving order, which equals
filtering by id. -/
def apply_recurring_exceptions (events : List CalendarEvent)
    (exceptions : List EventException) : List CalendarEvent :=
  match events with
  | [] => []
  | e :: rest =>
    let event_exceptions := exceptions.filter (fun x => x.event_id == e.id)
    let event_date := e.start_datetime.ediv 1440
    match event_exceptions.find? (fun x => x.exception_date == event_date) with
    | some x =>
      if x.exception_type == "cancelled" then
        apply_recurring_exceptions rest exceptions
      else if x.exception_type == "modified" || x.exception_type == "moved" then
        overlayException x e :: apply_recurring_exceptions rest exceptions
      else
        e :: apply_recurring_exceptions rest exceptions
    | none => e :: apply_recurring_exceptions rest exceptions

/-! ## Recurrence expander
(`generate_recurring_event_instances`, main.py 261-349, and the fallback
`generate_simple_recurring_instances`, main.py 352-412) -/

structure RecurrenceRule where
  freq : String
  interval : Nat
  byweekday : Option (List Int)
  bymonthday : Option (List Int)
  bymonth : Option (List Int)
  until_date : Option Int
  count : Option Nat
deriving Repr, DecidableEq

inductive RFreq where
  | daily
  | weekly
deriving Repr, DecidableEq

/-- Resolved parameters of the `dateutil.rrule` call built in
`generate_recurring_event_instances`. -/
structure RRuleParams where
  freq : RFreq
  interval : Nat
  dtstart : Int
  untilM : Option Int
  count : Option Nat
  byweekday : Option (List Int)
  bymonthday : Option (List Int)
  bymonth : Option (List Int)
deriving Repr, DecidableEq

/-- Mirrors the parameter construction in main.py 279-306:
`freq_map.get(freq, WEEKLY)` silently defaults any frequency other than
"DAILY" to WEEKLY; `until` (end of day, inclusive) wins over `count`;
a falsy `count` (0 or absent) falls back to the 730-day default horizon;
the `by*` filters are passed only when truthy (non-empty). -/
def toRRuleParams (base : CalendarEvent) (rule : RecurrenceRule) : RRuleParams :=
  let truthy : Option (List Int) → Option (List Int) := fun o =>
    match o with
    | some l => if l.isEmpty then none else some l
    | none => none
  { freq := if rule.freq == "DAILY" then .daily else .weekly
    interval := rule.interval
    dtstart := base.start_datetime
    untilM :=
      match rule.until_date with
      | some u => some (u * 1440 + 1439)
      | none =>
        match rule.count with
        | some c => if c == 0 then some (base.start_datetime + 730 * 1440) else none
        | none => some (base.start_datetime + 730 * 1440)
    count :=
      match rule.until_date with
      | some _ => none
      | none =>
        match rule.count with
        | some c => if c == 0 then none else some c
        | none => none
    byweekday := truthy rule.byweekday
    bymonthday := truthy rule.bymonthday
    bymonth := truthy rule.bymonth }

/-- Whether day `z` matches the rule's step pattern and filters, following
`dateutil.rrule` semantics for DAILY/WEEKLY: DAILY steps by `interval` days
from the start day; WEEKLY requires the Monday-started week index to agree
with the start week modulo `interval` and, with no `byweekday`, the start
day's weekday.  `by*` filters are conjunctive.  (The source would raise a
`KeyError` on weekday values outside 0-6; such rules are outside the model.) -/
def rruleDayMatches (p : RRuleParams) (z : Int) : Bool :=
  let d0 := p.dtstart.ediv 1440
  let stepOk :=
    match p.freq with
    | .daily => (z - d0).emod p.interval == 0
    | .weekly => (weekIndex z - weekIndex d0).emod p.interval == 0
  let wdOk :=
    match p.byweekday with
    | some l => l.contains (pyWeekday z)
    | none =>
      match p.freq with
      | .daily => true
      | .weekly => pyWeekday z == pyWeekday d0
  let mdOk :=
    match p.bymonthday with
    | some l => l.contains (civilFromDays z).2.2
    | none => true
  let mOk :=
    match p.bymonth with
    | some l => l.contains (civilFromDays z).2.1
    | none => true
  stepOk && wdOk && mdOk && mOk

/-- Day-by-day scan collecting occurrence instants (start day's time of day,
carried to each matching day), stopping at the `until` bound (inclusive) or
after `count` occurrences. -/
def rruleScan (p : RRuleParams) : Nat → Int → Nat → List Int
  | 0, _, _ => []
  | fuel + 1, z, taken =>
    if (match p.count with | some c => decide (c ≤ taken) | none => false) then []
    else
      let occ := z * 1440 + p.dtstart.emod 1440
      if (match p.untilM with | some u => decide (u < occ) | none => false) then []
      else if rruleDayMatches p z then
        occ :: rruleScan p fuel (z + 1) (taken + 1)
      else
        rruleScan p fuel (z + 1) taken

/-- Scan horizon in days: through the `until` day when an upper bound is
present, else wide enough for `count` occurrences of any rule without
month filters (for rules that combine `count` with `bymonth`/`bymonthday`
the source scans to year 9999; no claim exercises that corner). -/
def rruleScanDays (p : RRuleParams) : Nat :=
  match p.untilM with
  | some u => (u.ediv 1440 - p.dtstart.ediv 1440 + 1).toNat
  | none =>
    match p.count with
    | some c => (c + 1) * (p.interval + 1) * 7
    | none => 0

/-- All occurrences of the rrule (the first one being the base start when it
matches the filters), as `dateutil` enumerates them. -/
def rruleOccurrences (p : RRuleParams) : List Int :=
  rruleScan p (rruleScanDays p) (p.dtstart.ediv 1440) 0

/-- Largest event id in use; the database assigns `max + 1` to a new row. -/
def maxEventId (events : List CalendarEvent) : Nat :=
  (events.map CalendarEvent.id).foldl max 0

/-- An expanded instance row copies the base event's fields, with
`is_recurring = false` and `original_start` set (main.py 322-346). -/
def mkInstance (base : CalendarEvent) (newId : Nat) (s e : Int) : CalendarEvent :=
  { base with
    id := newId
    start_datetime := s
    end_datetime := e
    is_recurring := false
    original_start := some s }

/-- Model of `generate_recurring_event_instances`: expand the rrule, skip the first
occurrence (`occurrences[1:]` - the base event's own slot), and insert an
instance for each remaining occurrence unless `has_calendar_conflict` holds
for it.  The session has `autoflush=False`, so every conflict check sees
only the rows committed before the call (`events`); the pending instance
rows become visible at the final `db.commit()`. -/
def generate_recurring_event_instances (events : List CalendarEvent)
    (base : CalendarEvent) (rule : RecurrenceRule) : List CalendarEvent :=
  let occurrences := rruleOccurrences (toRRuleParams base rule)
  let duration := base.end_datetime - base.start_datetime
  let step := fun (acc : List CalendarEvent × Nat) (occurrence_start : Int) =>
    let occurrence_end := occurrence_start + duration
    if has_calendar_conflict events base.specialist_id occurrence_start occurrence_end none then
      acc
    else
      (acc.1 ++ [mkInstance base (acc.2 + 1) occurrence_start occurrence_end], acc.2 + 1)
  ((occurrences.drop 1).foldl step (events, maxEventId events)).1

/-- Model of `generate_simple_recurring_instances` (fallback when dateutil is
unavailable): steps a date cursor by days/weeks, breaking out of the loop on
any other frequency; `until or (start + 365 days)` and `count or 100` use
Python truthiness.  Conflict checks again see only the committed `events`. -/
def simpleLoop (events : List CalendarEvent) (base : CalendarEvent)
    (rule : RecurrenceRule) (end_date : Int) (max_count : Nat) :
    Nat → Int → Nat → List CalendarEvent → List CalendarEvent
  | 0, _, _, acc => acc
  | fuel + 1, current_date, count, acc =>
    if current_date ≤ end_date ∧ count < max_count then
      let stepDays : Option Int :=
        if rule.freq == "DAILY" then some (rule.interval : Int)
        else if rule.freq == "WEEKLY" then some (7 * (rule.interval : Int))
        else none
      match stepDays with
      | none => acc
      | some d =>
        let next := current_date + d
        let acc2 :=
          if next ≤ end_date then
            let occurrence_start := next * 1440 + base.start_datetime.emod 1440
            let occurrence_end := occurrence_start +
              (base.end_datetime - base.start_datetime)
            if has_calendar_conflict events base.specialist_id occurrence_start
                occurrence_end none then acc
            else acc ++ [mkInstance base (maxEventId events + acc.length - events.length + 1)
              occurrence_start occurrence_end]
          else acc
        simpleLoop events base rule end_date max_count fuel next (count + 1) acc2
    else acc

def generate_simple_recurring_instances (events : List CalendarEvent)
    (base : CalendarEvent) (rule : RecurrenceRule) : List CalendarEvent :=
  let current_date := base.start_datetime.ediv 1440
  let end_date := match rule.until_date with
    | some u => u
    | none => current_date + 365
  let max_count : Nat := match rule.count with
    | some c => if c == 0 then 100 else c
    | none => 100
  simpleLoop events base rule end_date max_count max_count current_date 0 events

/-! ## Availability synthesizer: slot listing
(`get_available_time_slots`, main.py 1873-2032) -/

structure SlotOut where
  start_time : Int
  end_time : Int
  duration_minutes : Int
deriving Repr, DecidableEq

/-- HTTP error surface (`HTTPException(status_code, detail)`). -/
inductive HError where
  | notFound (detail : String)
  | badRequest (detail : String)
deriving Repr, DecidableEq

/-- Stable ascending insertion by `start_time` (Python `list.sort(key=...)`
is stable; equal keys keep encounter order). -/
def insertByStart (x : SlotOut) : List SlotOut → List SlotOut
  | [] => [x]
  | y :: ys =>
    if y.start_time ≤ x.start_time then y :: insertByStart x ys
    else x :: y :: ys

def sortByStart (l : List SlotOut) : List SlotOut :=
  l.foldl (fun acc x => insertByStart x acc) []

/-- Slot walk over a traditional `AvailabilitySlot` window (main.py
1939-1978): step `current_time` by the service duration; reject a candidate
that overlaps a confirmed booking or (recombined through
`datetime.combine(booking_date, t.time())`) has a calendar conflict.  The
fuel bounds the walk; the source loops forever when the duration is not
positive, which no caller can produce (service durations are positive). -/
def slotWalkTraditional (events : List CalendarEvent)
    (existing_bookings : List BookingRow) (specialist_id : Nat)
    (booking_date service_duration : Int) :
    Nat → Int → Int → List SlotOut → List SlotOut
  | 0, _, _, out => out
  | fuel + 1, current_time, end_time, out =>
    if current_time + service_duration ≤ end_time then
      let slot_end := current_time + service_duration
      let conflict := existing_bookings.any (fun b =>
        current_time < booking_date * 1440 + b.end_time &&
        slot_end > booking_date * 1440 + b.start_time)
      let conflict :=
        if conflict then true
        else has_calendar_conflict events specialist_id
          (booking_date * 1440 + current_time.emod 1440)
          (booking_date * 1440 + slot_end.emod 1440) none
      let out :=
        if conflict then out
        else out ++ [⟨current_time.emod 1440, slot_end.emod 1440, service_duration⟩]
      slotWalkTraditional events existing_bookings specialist_id booking_date
        service_duration fuel (current_time + service_duration) end_time out
    else out

/-- Slot walk over a calendar availability event (main.py 1981-2028): same
stepping, but the conflict check excludes the source event itself and a
candidate already present (same `start_time`) is not appended again. -/
def slotWalkCalendar (events : List CalendarEvent)
    (existing_bookings : List BookingRow) (specialist_id : Nat)
    (booking_date service_duration : Int) (cal_event_id : Nat) :
    Nat → Int → Int → List SlotOut → List SlotOut
  | 0, _, _, out => out
  | fuel + 1, current_time, end_time, out =>
    if current_time + service_duration ≤ end_time then
      let slot_end := current_time + service_duration
      let conflict := existing_bookings.any (fun b =>
        current_time < booking_date * 1440 + b.end_time &&
        slot_end > booking_date * 1440 + b.start_time)
      let conflict :=
        if conflict then true
        else has_calendar_conflict events specialist_id current_time slot_end
          (some cal_event_id)
      let out :=
        if conflict then out
        else
          let slot_time := current_time.emod 1440
          if out.any (fun s => s.start_time == slot_time) then out
          else out ++ [⟨slot_time, slot_end.emod 1440, service_duration⟩]
      slotWalkCalendar events existing_bookings specialist_id booking_date
        service_duration cal_event_id fuel (current_time + service_duration)
        end_time out
    else out

/-- Core of `get_available_time_slots` once the service duration is known.
Note: the calendar-availability query here filters by `event_type`,
`status` and date but NOT by the soft-delete flag `is_active`
(main.py 1916-1925). -/
def availableTimeSlotsCore (s : State) (specialist_id : Nat)
    (booking_date service_duration : Int) : List SlotOut :=
  let availability_slots := s.availability_slots.filter (fun r =>
    r.specialist_id == specialist_id && r.date == booking_date && r.is_available)
  let calendar_availability := s.calendar_events.filter (fun ev =>
    ev.specialist_id == specialist_id && ev.event_type == "availability" &&
    ev.status == "confirmed" && ev.start_datetime.ediv 1440 == booking_date)
  let existing_bookings := s.bookings.filter (fun b =>
    b.specialist_id == specialist_id && b.date == booking_date &&
    b.status == "confirmed")
  let out := availability_slots.foldl (fun out r =>
    let current_time := booking_date * 1440 + r.start_time
    let end_time := booking_date * 1440 + r.end_time
    slotWalkTraditional s.calendar_events existing_bookings specialist_id
      booking_date service_duration ((end_time - current_time).toNat + 1)
      current_time end_time out) []
  let out := calendar_availability.foldl (fun out ev =>
    slotWalkCalendar s.calendar_events existing_bookings specialist_id
      booking_date service_duration ev.id
      ((ev.end_datetime - ev.start_datetime).toNat + 1)
      ev.start_datetime ev.end_datetime out) out
  sortByStart out

/-- Model of `get_available_time_slots`: resolve the service duration (explicit
service - `if service_id:` is a truthiness test - else the specialist's
minimum service duration, defaulting to 30), then walk the windows. -/
def get_available_time_slots (s : State) (specialist_id : Nat)
    (booking_date : Int) (service_id : Option Nat) :
    Except HError (List SlotOut) :=
  if service_id.getD 0 != 0 then
    match s.services.find? (fun sv => sv.id == service_id.getD 0) with
    | none => .error (.notFound "Service not found")
    | some service =>
      .ok (availableTimeSlotsCore s specialist_id booking_date service.duration)
  else
    let durations := (s.services.filter
      (fun sv => sv.specialist_id == specialist_id)).map Service.duration
    let service_duration := match durations with
      | [] => 30
      | d :: ds => ds.foldl min d
    .ok (availableTimeSlotsCore s specialist_id booking_date service_duration)

/-! ## Consumer identity consolidation
(`normalize_email`, `normalize_phone`, `find_matching_consumers`,
main.py 3205-3252) -/

/-- Python `str.lower()` (ASCII-faithful; every claim input is ASCII). -/
def pyLower (s : String) : String := String.mk (s.data.map Char.toLower)

/-- Characters removed by Python `str.strip()` with no argument. -/
def pySpace (c : Char) : Bool :=
  c == ' ' || c == '\t' || c == '\n' || c == '\r' || c == '\x0b' || c == '\x0c'

/-- Python `str.strip()`: drop leading and trailing whitespace. -/
def pyStrip (s : String) : String :=
  String.mk (((s.data.dropWhile pySpace).reverse.dropWhile pySpace).reverse)

/-- Model of `normalize_email`: `if not email: return None` (None or "" are falsy),
else strip surrounding whitespace and lowercase.  A whitespace-only email
normalizes to `some ""`. -/
def normalize_email : Option String → Option String
  | none => none
  | some s => if s == "" then none else some (pyLower (pyStrip s))

/-- Model of `normalize_phone`: falsy input gives None, else keep only digits.
A digit-free phone normalizes to `some ""`. -/
def normalize_phone : Option String → Option String
  | none => none
  | some s => if s == "" then none else some (String.mk (s.toList.filter Char.isDigit))

/-- Truthiness of an optional string (None and "" are falsy). -/
def truthyStr : Option String → Bool
  | none => false
  | some s => s != ""

/-- Model of `find_matching_consumers`: early return on two falsy inputs, else keep
every consumer whose normalized email or normalized phone matches a TRUTHY
normalized input (the `if norm_email and ...` guards). -/
def find_matching_consumers (consumers : List ConsumerRow)
    (email phone : Option String) : List ConsumerRow :=
  if !truthyStr email && !truthyStr phone then []
  else
    let norm_email := normalize_email email
    let norm_phone := normalize_phone phone
    consumers.filter (fun c =>
      (truthyStr norm_email && normalize_email c.email == norm_email) ||
      (truthyStr norm_phone && normalize_phone c.phone == norm_phone))

/-! ## Booking command (`create_booking`, main.py 2036-2213) -/

structure BookingCreate where
  specialist_id : Nat
  service_id : Nat
  booking_date : Int
  start_time : Int
  client_name : String
  client_email : String
  client_phone : Option String
  notes : Option String
  source_workplace_id : Option Nat
deriving Repr, DecidableEq

/-- Precondition 1: the specialist row exists. -/
def specialistExists (s : State) (req : BookingCreate) : Bool :=
  s.specialists.contains req.specialist_id

/-- Precondition 2: the service exists and belongs to the specialist. -/
def findService (s : State) (req : BookingCreate) : Option Service :=
  s.services.find? (fun sv =>
    sv.id == req.service_id && sv.specialist_id == req.specialist_id)

/-- Precondition 3: the requested window is contained in a traditional
availability slot or, failing that, in an ACTIVE confirmed calendar
availability event (main.py 2066-2114; note the `is_active` filter that
the slot-listing query lacks). -/
def validSlotExists (s : State) (req : BookingCreate) (duration : Int) : Bool :=
  let booking_start := req.booking_date * 1440 + req.start_time
  let booking_end := booking_start + duration
  let traditional := s.availability_slots.filter (fun r =>
    r.specialist_id == req.specialist_id && r.date == req.booking_date &&
    r.is_available)
  let calendar_availability := s.calendar_events.filter (fun ev =>
    ev.specialist_id == req.specialist_id && ev.event_type == "availability" &&
    ev.status == "confirmed" && ev.is_active &&
    ev.start_datetime.ediv 1440 == req.booking_date)
  (traditional.find? (fun r =>
      r.date * 1440 + r.start_time ≤ booking_start &&
      booking_end ≤ r.date * 1440 + r.end_time)).isSome ||
  (calendar_availability.find? (fun ev =>
      ev.start_datetime ≤ booking_start &&
      booking_end ≤ ev.end_datetime)).isSome

/-- Precondition 4: first confirmed booking of that specialist and date whose
`[start_time, end_time)` overlaps the request (times compared after `.time()`
truncation, main.py 2122-2135). -/
def findConflictingBooking (s : State) (req : BookingCreate) (duration : Int) :
    Option BookingRow :=
  let booking_start := req.booking_date * 1440 + req.start_time
  let booking_end := booking_start + duration
  s.bookings.find? (fun b =>
    b.specialist_id == req.specialist_id && b.date == req.booking_date &&
    b.status == "confirmed" &&
    b.start_time < booking_end.emod 1440 && b.end_time > booking_start.emod 1440)

/-- Autoincrement id for a new consumer row. -/
def nextConsumerId (s : State) : Nat :=
  (s.consumers.map ConsumerRow.id).foldl max 0 + 1

/-- Model of `get_next_client_rank` (main.py 3300-3310): `(max_rank or 0) + 1`. -/
def get_next_client_rank (s : State) (specialist_id : Nat) : Int :=
  match (s.client_profiles.filter (fun p => p.specialist_id == specialist_id)).map
      ClientProfileRow.score with
  | [] => 1
  | x :: xs => xs.foldl max x + 1

/-- The confirmed booking row inserted on success (main.py 2182-2195):
`end_time` is `booking_end.time()`, i.e. start + duration truncated to a
time of day. -/
def mkBookingRow (req : BookingCreate) (service : Service) (cid : Nat) : BookingRow :=
  { specialist_id := req.specialist_id
    service_id := req.service_id
    consumer_id := some cid
    client_name := req.client_name
    client_email := req.client_email
    client_phone := req.client_phone
    date := req.booking_date
    start_time := req.start_time
    end_time := (req.booking_date * 1440 + req.start_time + service.duration).emod 1440
    status := "confirmed"
    notes := req.notes }

/-- Success path of `create_booking` after all four checks pass
(main.py 2142-2199): reuse the first matching consumer, or create the
consumer together with its referral and client-profile rows, then insert
the booking and commit. -/
def create_booking_success (s : State) (req : BookingCreate) (service : Service) :
    Except HError BookingRow × State :=
  match find_matching_consumers s.consumers (some req.client_email) req.client_phone with
  | consumer :: _ =>
    (.ok (mkBookingRow req service consumer.id),
     { s with bookings := s.bookings ++ [mkBookingRow req service consumer.id] })
  | [] =>
    let cid := nextConsumerId s
    (.ok (mkBookingRow req service cid),
     { s with
       consumers := s.consumers ++
         [{ id := cid, name := req.client_name
            email := some req.client_email, phone := req.client_phone }]
       referrals := s.referrals ++
         [{ consumer_id := cid
            specialist_id := req.specialist_id
            referred_by_specialist_id :=
              if req.source_workplace_id.getD 0 != 0 then none
              else some req.specialist_id
            referred_by_workplace_id := req.source_workplace_id }]
       client_profiles := s.client_profiles ++
         [{ specialist_id := req.specialist_id
            consumer_id := cid
            score := get_next_client_rank s req.specialist_id }]
       bookings := s.bookings ++ [mkBookingRow req service cid] })

/-- Model of `create_booking`: the four precondition checks run in order, each
raising a distinct `HTTPException` before any `db.add`; any raised error
triggers `db.rollback()`, so the returned state equals the input state on
every error path. -/
def create_booking (s : State) (req : BookingCreate) :
    Except HError BookingRow × State :=
  if !specialistExists s req then
    (.error (.notFound "Specialist not found"), s)
  else
    match findService s req with
    | none => (.error (.notFound "Service not found for this specialist"), s)
    | some service =>
      if !validSlotExists s req service.duration then
        (.error (.notFound "No availability slot covers the requested time"), s)
      else if (findConflictingBooking s req service.duration).isSome then
        (.error (.badRequest "Time slot conflicts with existing booking"), s)
      else
        create_booking_success s req service

/-! ## Availability synthesizer: smart suggestions
(`generate_smart_availability_suggestions`, `is_within_working_hours`,
`calculate_confidence_score`, main.py 531-675).  The confidence arithmetic
is modelled in `ℚ`; the suggestion's advisory `reason` string is elided. -/

structure AvailabilityQuery where
  start_datetime : Int
  end_datetime : Int
  duration_minutes : Int
deriving Repr, DecidableEq

structure Suggestion where
  suggested_datetime : Int
  duration_minutes : Int
  confidence_score : ℚ
deriving Repr, DecidableEq

/-- Model of `is_within_working_hours`: weekday rows must be working days; a JSON
time range counts only when both bounds are present (and truthy - a parsed
time string is truthy exactly when present); the containment test is
INCLUSIVE at both ends (`start <= t <= end`). -/
def is_within_working_hours (check_datetime : Int)
    (working_hours : List WorkingHoursRow) : Bool :=
  let weekday := pyWeekday (check_datetime.ediv 1440)
  let check_time := check_datetime.emod 1440
  working_hours.any (fun wh =>
    wh.day_of_week == weekday && wh.is_working_day &&
    wh.time_ranges.any (fun tr =>
      match tr with
      | (some start_time, some end_time) =>
        start_time ≤ check_time && check_time ≤ end_time
      | _ => false))

/-- Model of `calculate_confidence_score` (main.py 617-675): sequential weighting
starting from 1.0, capped at 1.0.  `datetime.utcnow()` is injected as
`now`; the unused `query` parameter is dropped; the nearby-events count
uses the specialist's active events lying fully inside the +-2h window. -/
def calculate_confidence_score (events : List CalendarEvent)
    (specialist_id : Nat) (now suggested_datetime : Int)
    (preferences : Option SchedulingPreferencesRow) : ℚ :=
  let score : ℚ := 1
  let hour := suggested_datetime.emod 1440 / 60
  let score :=
    if (9 ≤ hour ∧ hour ≤ 11) ∨ (14 ≤ hour ∧ hour ≤ 16) then score * 1
    else if (8 ≤ hour ∧ hour ≤ 9) ∨ (11 ≤ hour ∧ hour ≤ 14) ∨
        (16 ≤ hour ∧ hour ≤ 17) then score * (8 / 10)
    else score * (6 / 10)
  let weekday := pyWeekday (suggested_datetime.ediv 1440)
  let score := if 0 ≤ weekday ∧ weekday ≤ 4 then score * 1 else score * (7 / 10)
  let score :=
    match preferences with
    | some p =>
      let notice_hours : ℚ := ((suggested_datetime - now : Int) : ℚ) / 60
      let min_notice_hours : ℚ := ((p.min_booking_notice : Int) : ℚ) / 60
      if min_notice_hours * 2 ≤ notice_hours then score * 1
      else if min_notice_hours ≤ notice_hours then score * (8 / 10)
      else score * (3 / 10)
    | none => score
  let nearby_events := (events.filter (fun ev =>
    ev.specialist_id == specialist_id && ev.is_active &&
    suggested_datetime - 120 ≤ ev.start_datetime &&
    ev.end_datetime ≤ suggested_datetime + 120)).length
  let score :=
    if nearby_events == 0 then score * 1
    else if nearby_events ≤ 2 then score * (9 / 10)
    else score * (7 / 10)
  min score 1

/-! Weight factors as the spec states them, for comparison with the
sequential source computation. -/

def timeOfDayWeight (suggested_datetime : Int) : ℚ :=
  let hour := suggested_datetime.emod 1440 / 60
  if (9 ≤ hour ∧ hour ≤ 11) ∨ (14 ≤ hour ∧ hour ≤ 16) then 1
  else if (8 ≤ hour ∧ hour ≤ 9) ∨ (11 ≤ hour ∧ hour ≤ 14) ∨
      (16 ≤ hour ∧ hour ≤ 17) then 8 / 10
  else 6 / 10

def weekdayWeight (suggested_datetime : Int) : ℚ :=
  if 0 ≤ pyWeekday (suggested_datetime.ediv 1440) ∧
      pyWeekday (suggested_datetime.ediv 1440) ≤ 4 then 1 else 7 / 10

def advanceNoticeWeight (now suggested_datetime : Int)
    (p : SchedulingPreferencesRow) : ℚ :=
  let notice_hours : ℚ := ((suggested_datetime - now : Int) : ℚ) / 60
  let min_notice_hours : ℚ := ((p.min_booking_notice : Int) : ℚ) / 60
  if min_notice_hours * 2 ≤ notice_hours then 1
  else if min_notice_hours ≤ notice_hours then 8 / 10
  else 3 / 10

def densityWeight (events : List CalendarEvent) (specialist_id : Nat)
    (suggested_datetime : Int) : ℚ :=
  let nearby_events := (events.filter (fun ev =>
    ev.specialist_id == specialist_id && ev.is_active &&
    suggested_datetime - 120 ≤ ev.start_datetime &&
    ev.end_datetime ≤ suggested_datetime + 120)).length
  if nearby_events == 0 then 1
  else if nearby_events ≤ 2 then 9 / 10
  else 7 / 10

/-- Stable descending insertion by confidence
(`sort(key=confidence, reverse=True)` is stable with equal keys keeping
encounter order). -/
def insertByConfidenceDesc (x : Suggestion) : List Suggestion → List Suggestion
  | [] => [x]
  | y :: ys =>
    if x.confidence_score ≤ y.confidence_score then
      y :: insertByConfidenceDesc x ys
    else x :: y :: ys

def sortByConfidenceDesc (l : List Suggestion) : List Suggestion :=
  l.foldl (fun acc x => insertByConfidenceDesc x acc) []

/-- The preferences row used by the suggestion path: first active row for
the specialist (`.first()` over the unordered query; modelled as the first
row in table order). -/
def prefsOf (s : State) (specialist_id : Nat) : Option SchedulingPreferencesRow :=
  (s.scheduling_preferences.filter (fun p =>
    p.specialist_id == specialist_id && p.is_active)).head?

def workingHoursOf (s : State) (specialist_id : Nat) : List WorkingHoursRow :=
  s.working_hours.filter (fun wh =>
    wh.specialist_id == specialist_id && wh.is_active)

/-- The suggestion walk (main.py 563-587): step by the preference slot
increment (30 without preferences), keeping each conflict-free step inside
working hours, scored on the spot.  Fuel bounds the walk; the source loops
forever on a non-positive increment, which the claims never exercise. -/
def suggestLoop (events : List CalendarEvent) (working_hours : List WorkingHoursRow)
    (preferences : Option SchedulingPreferencesRow) (specialist_id : Nat)
    (now : Int) (query : AvailabilityQuery) :
    Nat → Int → List Suggestion → List Suggestion
  | 0, _, suggestions => suggestions
  | fuel + 1, current_datetime, suggestions =>
    if current_datetime + query.duration_minutes ≤ query.end_datetime then
      suggestLoop events working_hours preferences specialist_id now query fuel
        (current_datetime + (match preferences with
          | some p => p.slot_increment
          | none => 30))
        (if is_within_working_hours current_datetime working_hours then
          (if has_calendar_conflict events specialist_id current_datetime
              (current_datetime + query.duration_minutes) none then suggestions
           else suggestions ++ [⟨current_datetime, query.duration_minutes,
             calculate_confidence_score events specialist_id now
               current_datetime preferences⟩])
         else suggestions)
    else suggestions

/-- Model of `generate_smart_availability_suggestions`: walk, then sort by confidence
descending and return the top 10. -/
def generate_smart_availability_suggestions (s : State) (specialist_id : Nat)
    (now : Int) (query : AvailabilityQuery) : List Suggestion :=
  let preferences := prefsOf s specialist_id
  let working_hours := workingHoursOf s specialist_id
  let suggestions := suggestLoop s.calendar_events working_hours preferences
    specialist_id now query
    ((query.end_datetime - query.start_datetime).toNat + 1)
    query.start_datetime []
  (sortByConfidenceDesc suggestions).take 10

/-! ## Spec-side description of the exception overlay (for claim C5):
one pass, dropping cancelled dates and overlaying the override fields that
the source actually applies (non-null start/end; non-null AND non-empty
title/description). -/

/-- Per-occurrence overlay as the (amended) specification words it. -/
def overlaySpecStep (exceptions : List EventException) (e : CalendarEvent) :
    Option CalendarEvent :=
  match exceptions.find? (fun x =>
      x.event_id == e.id && x.exception_date == e.start_datetime.ediv 1440) with
  | none => some e
  | some x =>
    if x.exception_type = "cancelled" then none
    else if x.exception_type = "modified" ∨ x.exception_type = "moved" then
      some { e with
        start_datetime := x.new_start_datetime.getD e.start_datetime
        end_datetime := x.new_end_datetime.getD e.end_datetime
        title := match x.new_title with
          | some t => if t = "" then e.title else t
          | none => e.title
        description := match x.new_description with
          | some dsc => if dsc = "" then e.description else dsc
          | none => e.description }
    else some e

/-! ## Theorems -/

deriving instance DecidableEq for Except

theorem find?_filter_comm {α : Type} (l : List α) (p q : α → Bool) :
    (l.filter p).find? q = l.find? (fun a => p a && q a) := by
  induction l with
  | nil => rfl
  | cons a l ih =>
    by_cases hp : p a
    · by_cases hq : q a
      · simp [List.filter_cons, hp, List.find?_cons, hq]
      · simp [List.filter_cons, hp, List.find?_cons, hq, ih]
    · simp [List.filter_cons, hp, List.find?_cons, ih]

theorem overlayException_eq_spec (x : EventException) (e : CalendarEvent) :
    overlayException x e =
      { e with
        start_datetime := x.new_start_datetime.getD e.start_datetime
        end_datetime := x.new_end_datetime.getD e.end_datetime
        title := match x.new_title with
          | some t => if t = "" then e.title else t
          | none => e.title
        description := match x.new_description with
          | some dsc => if dsc = "" then e.description else dsc
          | none => e.description } := by
  unfold overlayException
  cases x.new_start_datetime <;> cases x.new_end_datetime <;>
    cases x.new_title <;> cases x.new_description <;>
    simp only [Option.getD] <;> split_ifs <;> simp_all [beq_iff_eq]

/-- C5 (amended): `apply_recurring_exceptions` equals, occurrence by
occurrence, the spec-side overlay: the first exception matching the
occurrence's calendar date drops it when `cancelled`, overlays the non-null
(and, for the string fields, non-empty) overrides when `modified`/`moved`,
and otherwise the occurrence passes through unchanged; the overlay reads
but never writes the exception table. -/
theorem exception_overlay_semantics (events : List CalendarEvent)
    (exceptions : List EventException) :
    apply_recurring_exceptions events exceptions =
      events.filterMap (overlaySpecStep exceptions) := by
  induction events with
  | nil => rfl
  | cons e rest ih =>
    have hstep : apply_recurring_exceptions (e :: rest) exceptions =
        match overlaySpecStep exceptions e with
        | none => apply_recurring_exceptions rest exceptions
        | some e2 => e2 :: apply_recurring_exceptions rest exceptions := by
      simp only [apply_recurring_exceptions]
      unfold overlaySpecStep
      simp only [find?_filter_comm]
      cases hx : exceptions.find? (fun x =>
          x.event_id == e.id && x.exception_date == e.start_datetime.ediv 1440) with
      | none => rfl
      | some x =>
        simp only [beq_iff_eq, Bool.or_eq_true]
        split_ifs <;> simp_all [overlayException_eq_spec]
    rw [List.filterMap_cons, hstep]
    cases overlaySpecStep exceptions e <;> simp [ih]

/-- Concrete occurrence and exception showing that a non-null but EMPTY
override title is not overlaid (Python truthiness). -/
def c5Event : CalendarEvent :=
  { id := 7, specialist_id := 1, title := "Original Title", description := "orig"
    start_datetime := daysFromCivil 2025 3 10 * 1440 + 540
    end_datetime := daysFromCivil 2025 3 10 * 1440 + 600
    event_type := "availability", status := "confirmed", is_active := true
    buffer_before := 0, buffer_after := 0, is_recurring := false
    recurring_event_id := some "1_s", original_start := some (daysFromCivil 2025 3 10 * 1440 + 540) }

def c5Exception : EventException :=
  { event_id := 7, exception_date := daysFromCivil 2025 3 10
    exception_type := "modified", new_start_datetime := none
    new_end_datetime := none, new_title := some "", new_description := none }

/-- C5 counterexample: the claim says a `modified` exception overlays every
non-null override field, so this occurrence's title should become `""`;
the code leaves the occurrence completely unchanged. -/
theorem exception_overlay_empty_title_cex :
    c5Exception.new_title = some "" ∧
    c5Exception.exception_type = "modified" ∧
    c5Exception.exception_date = c5Event.start_datetime.ediv 1440 ∧
    apply_recurring_exceptions [c5Event] [c5Exception] = [c5Event] ∧
    c5Event.title ≠ "" := by decide

/-- Event for the buffer-conflict scenario: 10:00-11:00 on 2025-01-06 with
`buffer_after = 15`. -/
def c2Event : CalendarEvent :=
  { id := 1, specialist_id := 1, title := "Event A", description := ""
    start_datetime := minutesAt 2025 1 6 10 0, end_datetime := minutesAt 2025 1 6 11 0
    event_type := "appointment", status := "confirmed", is_active := true
    buffer_before := 0, buffer_after := 15, is_recurring := false
    recurring_event_id := none, original_start := none }

/-- C2: the proposed interval 11:05-11:35 overlaps the buffer-padded
interval of `c2Event` (padded end 11:15), yet `has_calendar_conflict`
returns false: the SQL pre-filter keeps only events whose RAW interval
overlaps the proposal, so the buffer test in the loop can never fire for a
buffer-only overlap. -/
theorem buffer_only_overlap_not_detected :
    has_calendar_conflict [c2Event] 1 (minutesAt 2025 1 6 11 5)
      (minutesAt 2025 1 6 11 35) none = false ∧
    c2Event.start_datetime - c2Event.buffer_before < minutesAt 2025 1 6 11 35 ∧
    c2Event.end_datetime + c2Event.buffer_after > minutesAt 2025 1 6 11 5 ∧
    c2Event.is_active = true := by decide

/-! ### C3: weekly expansion scenario -/

/-- Base event: Monday 2025-01-06, 09:00-10:00, recurring. -/
def c3Base : CalendarEvent :=
  { id := 1, specialist_id := 1, title := "Recurring availability", description := ""
    start_datetime := minutesAt 2025 1 6 9 0, end_datetime := minutesAt 2025 1 6 10 0
    event_type := "availability", status := "confirmed", is_active := true
    buffer_before := 0, buffer_after := 0, is_recurring := true
    recurring_event_id := some "1_1736154000", original_start := none }

/-- Rule freq=WEEKLY, interval=1, byweekday=[Mon,Wed,Fri], count=5. -/
def c3Rule : RecurrenceRule :=
  { freq := "WEEKLY", interval := 1, byweekday := some [0, 2, 4]
    bymonthday := none, bymonth := none, until_date := none, count := some 5 }

/-- C3 counterexample: with `count = 5` the rrule's five occurrences INCLUDE
the base slot 2025-01-06 (which the code then skips), so only four instances
are emitted and none falls on 2025-01-17. -/
theorem weekly_expansion_cex :
    c3Rule.count = some 5 ∧
    ((generate_recurring_event_instances [c3Base] c3Base c3Rule).drop 1).length = 4 ∧
    ((generate_recurring_event_instances [c3Base] c3Base c3Rule).drop 1).all
      (fun e => e.start_datetime.ediv 1440 != daysFromCivil 2025 1 17) = true := by
  decide

/-- C3 (amended): the expansion emits exactly four occurrences, on
2025-01-08, 2025-01-10, 2025-01-13 and 2025-01-15, each 09:00-10:00
(the base duration is preserved), all strictly after the base start. -/
theorem weekly_expansion_scenario :
    ((generate_recurring_event_instances [c3Base] c3Base c3Rule).drop 1).map
      (fun e => (e.start_datetime, e.end_datetime)) =
      [(minutesAt 2025 1 8 9 0, minutesAt 2025 1 8 10 0),
       (minutesAt 2025 1 10 9 0, minutesAt 2025 1 10 10 0),
       (minutesAt 2025 1 13 9 0, minutesAt 2025 1 13 10 0),
       (minutesAt 2025 1 15 9 0, minutesAt 2025 1 15 10 0)] ∧
    ((generate_recurring_event_instances [c3Base] c3Base c3Rule).drop 1).all
      (fun e => c3Base.start_datetime < e.start_datetime) = true := by
  decide

/-! ### C8: unsupported recurrence frequency -/

def c8Base : CalendarEvent :=
  { id := 1, specialist_id := 1, title := "Monthly wish", description := ""
    start_datetime := minutesAt 2025 1 6 9 0, end_datetime := minutesAt 2025 1 6 10 0
    event_type := "availability", status := "confirmed", is_active := true
    buffer_before := 0, buffer_after := 0, is_recurring := true
    recurring_event_id := some "1_1736154001", original_start := none }

def c8Rule : RecurrenceRule :=
  { freq := "MONTHLY", interval := 1, byweekday := none
    bymonthday := none, bymonth := none, until_date := none, count := some 3 }

/-- C8 counterexample: a MONTHLY rule does NOT abort the primary
(dateutil-backed) expander; `freq_map.get(freq, WEEKLY)` silently treats it
as WEEKLY and instances are emitted. -/
theorem unsupported_freq_cex :
    c8Rule.freq = "MONTHLY" ∧
    generate_recurring_event_instances [c8Base] c8Base c8Rule ≠ [c8Base] ∧
    ((generate_recurring_event_instances [c8Base] c8Base c8Rule).drop 1).map
      (fun e => e.start_datetime) =
      [minutesAt 2025 1 13 9 0, minutesAt 2025 1 20 9 0] := by decide

/-- C8 (amended): a frequency that is neither DAILY nor WEEKLY aborts only
the FALLBACK expander (used when dateutil is unavailable), which emits
nothing; the primary expander silently treats any non-DAILY frequency as
WEEKLY. -/
theorem unsupported_freq_behavior :
    (∀ (events : List CalendarEvent) (base : CalendarEvent) (rule : RecurrenceRule),
      rule.freq ≠ "DAILY" →
      generate_recurring_event_instances events base rule =
        generate_recurring_event_instances events base { rule with freq := "WEEKLY" }) ∧
    (∀ (events : List CalendarEvent) (base : CalendarEvent) (rule : RecurrenceRule),
      rule.freq ≠ "DAILY" → rule.freq ≠ "WEEKLY" →
      generate_simple_recurring_instances events base rule = events) := by
  constructor
  · intro events base rule h
    have hp : toRRuleParams base rule = toRRuleParams base { rule with freq := "WEEKLY" } := by
      unfold toRRuleParams
      simp [beq_iff_eq, h]
    unfold generate_recurring_event_instances
    rw [hp]
  · intro events base rule h1 h2
    have hloop : ∀ (ed : Int) (mc fuel : Nat) (cur : Int) (cnt : Nat)
        (acc : List CalendarEvent),
        simpleLoop events base rule ed mc fuel cur cnt acc = acc := by
      intro ed mc fuel cur cnt acc
      cases fuel with
      | zero => rfl
      | succ n =>
        unfold simpleLoop
        have hd : (rule.freq == "DAILY") = false := by simp [beq_iff_eq, h1]
        have hw : (rule.freq == "WEEKLY") = false := by simp [beq_iff_eq, h2]
        simp [hd, hw]
    unfold generate_simple_recurring_instances
    exact hloop _ _ _ _ _ _

/-- Witness for the amended C8 theorem at the MONTHLY rule above. -/
theorem unsupported_freq_behavior_witness :
    generate_recurring_event_instances [c8Base] c8Base c8Rule =
      generate_recurring_event_instances [c8Base] c8Base { c8Rule with freq := "WEEKLY" } ∧
    generate_simple_recurring_instances [c8Base] c8Base c8Rule = [c8Base] :=
  ⟨unsupported_freq_behavior.1 [c8Base] c8Base c8Rule (by decide),
   unsupported_freq_behavior.2 [c8Base] c8Base c8Rule (by decide) (by decide)⟩

/-! ### C4: slot-listing scenario -/

/-- One availability window 09:00-12:00 on 2025-01-06, one 45-minute
service, nothing else. -/
def c4State : State :=
  { specialists := [1]
    services := [{ id := 1, specialist_id := 1, duration := 45 }]
    availability_slots := [{ specialist_id := 1, date := daysFromCivil 2025 1 6
                             start_time := 540, end_time := 720, is_available := true }]
    calendar_events := [], bookings := [], consumers := [], referrals := []
    client_profiles := [], working_hours := [], scheduling_preferences := [] }

/-- C4: `list_slots` walks the window in 45-minute (service-duration) steps
and returns exactly 09:00-09:45, 09:45-10:30, 10:30-11:15, 11:15-12:00. -/
theorem slot_listing_scenario :
    get_available_time_slots c4State 1 (daysFromCivil 2025 1 6) (some 1) =
      .ok [{ start_time := 540, end_time := 585, duration_minutes := 45 },
           { start_time := 585, end_time := 630, duration_minutes := 45 },
           { start_time := 630, end_time := 675, duration_minutes := 45 },
           { start_time := 675, end_time := 720, duration_minutes := 45 }] := by
  decide

/-! ### C10: soft-delete asymmetry between listing and booking -/

/-- Soft-deleted (`is_active = false`) availability calendar event,
09:00-12:00 on 2025-01-06; the only availability source in the state. -/
def c10Event : CalendarEvent :=
  { id := 1, specialist_id := 1, title := "Deleted availability", description := ""
    start_datetime := minutesAt 2025 1 6 9 0, end_datetime := minutesAt 2025 1 6 12 0
    event_type := "availability", status := "confirmed", is_active := false
    buffer_before := 0, buffer_after := 0, is_recurring := false
    recurring_event_id := none, original_start := none }

def c10State : State :=
  { specialists := [1]
    services := [{ id := 1, specialist_id := 1, duration := 45 }]
    availability_slots := []
    calendar_events := [c10Event]
    bookings := [], consumers := [], referrals := []
    client_profiles := [], working_hours := [], scheduling_preferences := [] }

def c10Req (st : Int) : BookingCreate :=
  { specialist_id := 1, service_id := 1, booking_date := daysFromCivil 2025 1 6
    start_time := st, client_name := "Some Client", client_email := "client@example.com"
    client_phone := none, notes := none, source_workplace_id := none }

/-- C10: the slot-listing query does not filter `is_active`, so the
soft-deleted availability event still yields four slots; the booking
validation does filter `is_active`, so every one of those slots is rejected
with the no-availability error. -/
theorem soft_delete_asymmetry :
    get_available_time_slots c10State 1 (daysFromCivil 2025 1 6) (some 1) =
      .ok [{ start_time := 540, end_time := 585, duration_minutes := 45 },
           { start_time := 585, end_time := 630, duration_minutes := 45 },
           { start_time := 630, end_time := 675, duration_minutes := 45 },
           { start_time := 675, end_time := 720, duration_minutes := 45 }] ∧
    ∀ sl ∈ [({ start_time := 540, end_time := 585, duration_minutes := 45 } : SlotOut),
            { start_time := 585, end_time := 630, duration_minutes := 45 },
            { start_time := 630, end_time := 675, duration_minutes := 45 },
            { start_time := 675, end_time := 720, duration_minutes := 45 }],
      create_booking c10State (c10Req sl.start_time) =
        (.error (.notFound "No availability slot covers the requested time"), c10State) := by
  decide

/-! ### C1: no-double-booking invariant -/

/-- Two confirmed bookings of the same specialist and date with overlapping
`[start_time, end_time)` intervals. -/
def bookingsConflict (b1 b2 : BookingRow) : Bool :=
  b1.specialist_id == b2.specialist_id && b1.date == b2.date &&
  b1.status == "confirmed" && b2.status == "confirmed" &&
  b1.start_time < b2.end_time && b1.end_time > b2.start_time

/-- The invariant: no pair of rows in the booking table conflicts. -/
def no_double_booking : List BookingRow → Bool
  | [] => true
  | b :: rest => rest.all (fun b2 => !bookingsConflict b b2) && no_double_booking rest

theorem no_double_booking_append (l : List BookingRow) (b : BookingRow) :
    no_double_booking (l ++ [b]) = true ↔
      (no_double_booking l = true ∧ ∀ b1 ∈ l, bookingsConflict b1 b = false) := by
  induction l with
  | nil => simp [no_double_booking]
  | cons a l ih =>
    simp only [List.cons_append, no_double_booking, Bool.and_eq_true,
      List.all_eq_true, List.append_eq, List.mem_append, List.mem_cons,
      List.mem_singleton, Bool.not_eq_true', ih]
    constructor
    · rintro ⟨h1, h2, h3⟩
      refine ⟨⟨fun x hx => h1 x (Or.inl hx), h2⟩, fun y hy => ?_⟩
      rcases hy with rfl | hy
      · exact h1 b (Or.inr (Or.inl rfl))
      · exact h3 y hy
    · rintro ⟨⟨h1, h2⟩, h3⟩
      refine ⟨fun x hx => ?_, h2, fun y hy => h3 y (Or.inr hy)⟩
      rcases hx with hx | rfl | h0
      · exact h1 x hx
      · exact h3 a (Or.inl rfl)
      · cases h0

/-- Characterization of a successful `create_booking`: the service was
found, the conflict probe came back empty, the new confirmed row is
appended, and the consumer was either reused (first match - tables other
than bookings untouched) or freshly created. -/
theorem create_booking_ok (s : State) (req : BookingCreate) (bk : BookingRow)
    (s2 : State) (h : create_booking s req = (.ok bk, s2)) :
    ∃ service, findService s req = some service ∧
      findConflictingBooking s req service.duration = none ∧
      s2.bookings = s.bookings ++ [bk] ∧
      bk.specialist_id = req.specialist_id ∧
      bk.date = req.booking_date ∧
      bk.status = "confirmed" ∧
      bk.start_time = req.start_time ∧
      bk.end_time = (req.booking_date * 1440 + req.start_time + service.duration).emod 1440 ∧
      (match find_matching_consumers s.consumers (some req.client_email) req.client_phone with
       | consumer :: _ =>
         bk.consumer_id = some consumer.id ∧ s2.consumers = s.consumers ∧
         s2.referrals = s.referrals ∧ s2.client_profiles = s.client_profiles
       | [] =>
         bk.consumer_id = some (nextConsumerId s) ∧
         s2.consumers = s.consumers ++
           [{ id := nextConsumerId s, name := req.client_name
              email := some req.client_email, phone := req.client_phone }]) := by
  unfold create_booking at h
  split at h
  · simp at h
  · split at h
    · simp at h
    · rename_i service hserv
      split at h
      · simp at h
      · split at h
        · rename_i hconf
          simp at h
        · rename_i hconf
          have hcnone : findConflictingBooking s req service.duration = none := by
            rcases hc : findConflictingBooking s req service.duration with - | b
            · rfl
            · rw [hc] at hconf
              simp at hconf
          refine ⟨service, hserv, hcnone, ?_⟩
          unfold create_booking_success at h
          cases hm : find_matching_consumers s.consumers (some req.client_email)
              req.client_phone with
          | cons consumer rest =>
            rw [hm] at h
            simp only [Prod.mk.injEq, Except.ok.injEq] at h
            obtain ⟨hbk, hs2⟩ := h
            subst hbk
            subst hs2
            exact ⟨rfl, rfl, rfl, rfl, rfl, rfl, ⟨rfl, rfl, rfl, rfl⟩⟩
          | nil =>
            rw [hm] at h
            simp only [Prod.mk.injEq, Except.ok.injEq] at h
            obtain ⟨hbk, hs2⟩ := h
            subst hbk
            subst hs2
            exact ⟨rfl, rfl, rfl, rfl, rfl, rfl, ⟨rfl, rfl⟩⟩

/-- C1: `create_booking` preserves the no-double-booking invariant: in the
single-threaded model, a successful booking was checked (inside the same
transaction) against every existing confirmed booking of that specialist
and date, and any overlap is rejected before the insert.  The request's
`start_time` is a time of day (`0 ≤ t < 1440`), as Python's `time` type
guarantees. -/
theorem create_booking_preserves_no_double_booking
    (s : State) (req : BookingCreate) (bk : BookingRow) (s2 : State)
    (hinv : no_double_booking s.bookings = true)
    (hlo : 0 ≤ req.start_time) (hhi : req.start_time < 1440)
    (h : create_booking s req = (.ok bk, s2)) :
    no_double_booking s2.bookings = true := by
  obtain ⟨service, hserv, hcnone, hbapp, hsid, hdate, hstatus, hstart, hend, -⟩ :=
    create_booking_ok s req bk s2 h
  rw [hbapp, no_double_booking_append]
  have hmod : (req.booking_date * 1440 + req.start_time).emod 1440 = req.start_time := by
    show (req.booking_date * 1440 + req.start_time) % 1440 = req.start_time
    rw [add_comm, mul_comm, Int.add_mul_emod_self_left, Int.emod_eq_of_lt hlo hhi]
  simp only [findConflictingBooking] at hcnone
  rw [List.find?_eq_none] at hcnone
  refine ⟨hinv, fun b1 hb1 => ?_⟩
  have hp := hcnone b1 hb1
  by_contra hcb
  rw [Bool.not_eq_false] at hcb
  simp only [bookingsConflict, Bool.and_eq_true, beq_iff_eq, decide_eq_true_eq] at hcb
  obtain ⟨⟨⟨⟨⟨hc1, hc2⟩, hc3⟩, -⟩, hc5⟩, hc6⟩ := hcb
  apply hp
  simp only [Bool.and_eq_true, beq_iff_eq, decide_eq_true_eq]
  rw [hsid] at hc1
  rw [hdate] at hc2
  rw [hend] at hc5
  rw [hstart] at hc6
  refine ⟨⟨⟨⟨hc1, hc2⟩, hc3⟩, hc5⟩, ?_⟩
  rw [hmod]
  exact hc6

def c1State : State :=
  { specialists := [1]
    services := [{ id := 1, specialist_id := 1, duration := 60 }]
    availability_slots := [{ specialist_id := 1, date := daysFromCivil 2025 1 6
                             start_time := 540, end_time := 720, is_available := true }]
    calendar_events := [], bookings := [], consumers := [], referrals := []
    client_profiles := [], working_hours := [], scheduling_preferences := [] }

def c1Req : BookingCreate :=
  { specialist_id := 1, service_id := 1, booking_date := daysFromCivil 2025 1 6
    start_time := 540, client_name := "Jane Doe", client_email := "jane@x.com"
    client_phone := none, notes := none, source_workplace_id := none }

def c1Bk : BookingRow :=
  { specialist_id := 1, service_id := 1, consumer_id := some 1
    client_name := "Jane Doe", client_email := "jane@x.com", client_phone := none
    date := daysFromCivil 2025 1 6, start_time := 540, end_time := 600
    status := "confirmed", notes := none }

def c1S2 : State :=
  { c1State with
    consumers := [{ id := 1, name := "Jane Doe"
                    email := some "jane@x.com", phone := none }]
    referrals := [{ consumer_id := 1, specialist_id := 1
                    referred_by_specialist_id := some 1
                    referred_by_workplace_id := none }]
    client_profiles := [{ specialist_id := 1, consumer_id := 1, score := 1 }]
    bookings := [c1Bk] }

/-- Witness: a successful concrete booking preserves the invariant. -/
theorem create_booking_preserves_no_double_booking_witness :
    no_double_booking c1S2.bookings = true :=
  create_booking_preserves_no_double_booking c1State c1Req c1Bk c1S2
    (by decide) (by decide) (by decide) (by decide)

/-! ### C6: fail-fast ordering and atomicity -/

/-- Shape lemma: `create_booking` either leaves the state unchanged or succeeds. -/
theorem create_booking_shape (s : State) (req : BookingCreate)
    (r : Except HError BookingRow) (s2 : State)
    (h : create_booking s req = (r, s2)) : s2 = s ∨ ∃ bk, r = .ok bk := by
  unfold create_booking at h
  split at h
  · simp only [Prod.mk.injEq] at h
    exact Or.inl h.2.symm
  · split at h
    · simp only [Prod.mk.injEq] at h
      exact Or.inl h.2.symm
    · split at h
      · simp only [Prod.mk.injEq] at h
        exact Or.inl h.2.symm
      · split at h
        · simp only [Prod.mk.injEq] at h
          exact Or.inl h.2.symm
        · unfold create_booking_success at h
          split at h
          · simp only [Prod.mk.injEq] at h
            exact Or.inr ⟨_, h.1.symm⟩
          · simp only [Prod.mk.injEq] at h
            exact Or.inr ⟨_, h.1.symm⟩

/-- C6: the four preconditions are checked in order, each failing with its
own distinct error; every error path returns the state unchanged (full
rollback - no partial booking row and no orphaned consumer, referral or
client-profile rows). -/
theorem create_booking_fail_fast (s : State) (req : BookingCreate) :
    (∀ e, (create_booking s req).1 = .error e → (create_booking s req).2 = s) ∧
    (specialistExists s req = false →
      create_booking s req = (.error (.notFound "Specialist not found"), s)) ∧
    (specialistExists s req = true → findService s req = none →
      create_booking s req =
        (.error (.notFound "Service not found for this specialist"), s)) ∧
    (∀ service, specialistExists s req = true → findService s req = some service →
      validSlotExists s req service.duration = false →
      create_booking s req =
        (.error (.notFound "No availability slot covers the requested time"), s)) ∧
    (∀ service, specialistExists s req = true → findService s req = some service →
      validSlotExists s req service.duration = true →
      (findConflictingBooking s req service.duration).isSome = true →
      create_booking s req =
        (.error (.badRequest "Time slot conflicts with existing booking"), s)) ∧
    List.Pairwise (fun (a b : HError) => a ≠ b)
      [.notFound "Specialist not found",
       .notFound "Service not found for this specialist",
       .notFound "No availability slot covers the requested time",
       .badRequest "Time slot conflicts with existing booking"] := by
  refine ⟨?_, ?_, ?_, ?_, ?_, by decide⟩
  · intro e h
    rcases hres : create_booking s req with ⟨r, s2⟩
    rcases create_booking_shape s req r s2 hres with hs | ⟨bk, rfl⟩
    · exact hs
    · rw [hres] at h
      simp at h
  · intro hsp
    simp [create_booking, hsp]
  · intro hsp hserv
    simp [create_booking, hsp, hserv]
  · intro service hsp hserv hslot
    simp [create_booking, hsp, hserv, hslot]
  · intro service hsp hserv hslot hconf
    simp [create_booking, hsp, hserv, hslot, hconf]

def c6State : State :=
  { specialists := [], services := [], availability_slots := []
    calendar_events := [], bookings := [], consumers := [], referrals := []
    client_profiles := [], working_hours := [], scheduling_preferences := [] }

def c6Req : BookingCreate :=
  { specialist_id := 3, service_id := 1, booking_date := daysFromCivil 2025 1 6
    start_time := 540, client_name := "Jane Doe", client_email := "jane@x.com"
    client_phone := none, notes := none, source_workplace_id := none }

/-- Witness: with no such specialist the first check fires and the state is
returned untouched. -/
theorem create_booking_fail_fast_witness :
    create_booking c6State c6Req =
      (.error (.notFound "Specialist not found"), c6State) :=
  (create_booking_fail_fast c6State c6Req).2.1 (by decide)

/-! ### C7: consumer identity consolidation -/

theorem truthy_email_of_truthy_normalize (o : Option String)
    (h : truthyStr (normalize_email o) = true) : truthyStr o = true := by
  cases o with
  | none => simp [normalize_email, truthyStr] at h
  | some s =>
    by_cases hs : (s == "") = true
    · simp [normalize_email, hs, truthyStr] at h
    · simp [truthyStr, bne, hs]

theorem truthy_phone_of_truthy_normalize (o : Option String)
    (h : truthyStr (normalize_phone o) = true) : truthyStr o = true := by
  cases o with
  | none => simp [normalize_phone, truthyStr] at h
  | some s =>
    by_cases hs : (s == "") = true
    · simp [normalize_phone, hs, truthyStr] at h
    · simp [truthyStr, bne, hs]

/-- C7 (amended): when some existing consumer matches the request by
normalized email or normalized phone WITH a truthy (non-empty) normalized
value - e.g. `Jane@X.com` against `jane@x.com` - a successful
`create_booking` reuses the first matching consumer and inserts no new
Consumer row. -/
theorem consumer_consolidation (s : State) (req : BookingCreate)
    (bk : BookingRow) (s2 : State) (c : ConsumerRow)
    (hmem : c ∈ s.consumers)
    (hmatch : (truthyStr (normalize_email (some req.client_email)) = true ∧
               normalize_email c.email = normalize_email (some req.client_email)) ∨
              (truthyStr (normalize_phone req.client_phone) = true ∧
               normalize_phone c.phone = normalize_phone req.client_phone))
    (h : create_booking s req = (.ok bk, s2)) :
    s2.consumers = s.consumers ∧
    ∃ c0, (find_matching_consumers s.consumers (some req.client_email)
        req.client_phone).head? = some c0 ∧ bk.consumer_id = some c0.id := by
  obtain ⟨service, -, -, -, -, -, -, -, -, hcons⟩ := create_booking_ok s req bk s2 h
  have hguard : (!truthyStr (some req.client_email) && !truthyStr req.client_phone)
      = false := by
    rcases hmatch with ⟨ht, -⟩ | ⟨ht, -⟩
    · rw [truthy_email_of_truthy_normalize _ ht]
      rfl
    · rw [truthy_phone_of_truthy_normalize _ ht]
      simp
  have hpredc : ((truthyStr (normalize_email (some req.client_email)) &&
      (normalize_email c.email == normalize_email (some req.client_email))) ||
      (truthyStr (normalize_phone req.client_phone) &&
      (normalize_phone c.phone == normalize_phone req.client_phone))) = true := by
    rcases hmatch with ⟨ht, heq⟩ | ⟨ht, heq⟩ <;> simp [ht, heq]
  have hcmem : c ∈ find_matching_consumers s.consumers (some req.client_email)
      req.client_phone := by
    unfold find_matching_consumers
    rw [hguard]
    simp only [Bool.false_eq_true, if_false]
    exact List.mem_filter.mpr ⟨hmem, hpredc⟩
  cases hfm : find_matching_consumers s.consumers (some req.client_email)
      req.client_phone with
  | nil =>
    rw [hfm] at hcmem
    cases hcmem
  | cons c0 rest =>
    rw [hfm] at hcons
    obtain ⟨hbkc, hs2c, -, -⟩ := hcons
    exact ⟨hs2c, c0, rfl, hbkc⟩

def c7wState : State :=
  { specialists := [1]
    services := [{ id := 1, specialist_id := 1, duration := 45 }]
    availability_slots := [{ specialist_id := 1, date := daysFromCivil 2025 1 6
                             start_time := 540, end_time := 720, is_available := true }]
    calendar_events := [], bookings := []
    consumers := [{ id := 1, name := "Jane", email := some "jane@x.com", phone := none }]
    referrals := [], client_profiles := [], working_hours := []
    scheduling_preferences := [] }

def c7wReq : BookingCreate :=
  { specialist_id := 1, service_id := 1, booking_date := daysFromCivil 2025 1 6
    start_time := 540, client_name := "Jane", client_email := "Jane@X.com"
    client_phone := none, notes := none, source_workplace_id := none }

def c7wBk : BookingRow :=
  { specialist_id := 1, service_id := 1, consumer_id := some 1
    client_name := "Jane", client_email := "Jane@X.com", client_phone := none
    date := daysFromCivil 2025 1 6, start_time := 540, end_time := 585
    status := "confirmed", notes := none }

def c7wS2 : State := { c7wState with bookings := [c7wBk] }

/-- Witness: `Jane@X.com` resolves to the existing `jane@x.com` consumer. -/
theorem consumer_consolidation_witness :
    c7wS2.consumers = c7wState.consumers ∧
    ∃ c0, (find_matching_consumers c7wState.consumers (some c7wReq.client_email)
        c7wReq.client_phone).head? = some c0 ∧ c7wBk.consumer_id = some c0.id :=
  consumer_consolidation c7wState c7wReq c7wBk c7wS2
    { id := 1, name := "Jane", email := some "jane@x.com", phone := none }
    (by decide) (Or.inl ⟨by decide, by decide⟩) (by decide)

def c7cState : State :=
  { specialists := [1]
    services := [{ id := 1, specialist_id := 1, duration := 45 }]
    availability_slots := [{ specialist_id := 1, date := daysFromCivil 2025 1 6
                             start_time := 540, end_time := 720, is_available := true }]
    calendar_events := [], bookings := []
    consumers := [{ id := 1, name := "Old Client", email := some "old@x.com"
                    phone := some "n/a" }]
    referrals := [], client_profiles := [], working_hours := []
    scheduling_preferences := [] }

def c7cReq : BookingCreate :=
  { specialist_id := 1, service_id := 1, booking_date := daysFromCivil 2025 1 6
    start_time := 540, client_name := "New Client", client_email := "new@y.com"
    client_phone := some "abc", notes := none, source_workplace_id := none }

/-- C7 counterexample: the request's phone `"abc"` and the stored phone
`"n/a"` are equal up to non-digit characters (both have digit string ""),
yet the booking creates a brand-new Consumer row: digit-free phones
normalize to the falsy "" and are never matched. -/
theorem consumer_consolidation_cex :
    normalize_phone c7cReq.client_phone =
      normalize_phone ((c7cState.consumers.get ⟨0, by decide⟩).phone) ∧
    (create_booking c7cState c7cReq).2.consumers.length =
      c7cState.consumers.length + 1 := by decide

/-! ### C9: suggestion scoring -/

/-- With preferences present, the sequentially computed confidence equals
the product of the four weight factors, capped at 1. -/
theorem confidence_score_eq_weights (events : List CalendarEvent)
    (specialist_id : Nat) (now t : Int) (p : SchedulingPreferencesRow) :
    calculate_confidence_score events specialist_id now t (some p) =
      min (timeOfDayWeight t * weekdayWeight t * advanceNoticeWeight now t p *
        densityWeight events specialist_id t) 1 := by
  simp only [calculate_confidence_score, timeOfDayWeight, weekdayWeight,
    advanceNoticeWeight, densityWeight]
  split_ifs <;> (congr 1) <;> ring

/-- Every suggestion produced by the walk (beyond the accumulator) carries
the score computed by `calculate_confidence_score` at its own instant. -/
theorem mem_suggestLoop (events : List CalendarEvent)
    (working_hours : List WorkingHoursRow)
    (preferences : Option SchedulingPreferencesRow) (specialist_id : Nat)
    (now : Int) (query : AvailabilityQuery) :
    ∀ (fuel : Nat) (cur : Int) (acc : List Suggestion) (x : Suggestion),
      x ∈ suggestLoop events working_hours preferences specialist_id now query
        fuel cur acc →
      x ∈ acc ∨ x.confidence_score =
        calculate_confidence_score events specialist_id now
          x.suggested_datetime preferences := by
  intro fuel
  induction fuel with
  | zero =>
    intro cur acc x hx
    exact Or.inl hx
  | succ n ih =>
    intro cur acc x hx
    unfold suggestLoop at hx
    split at hx
    · rcases ih _ _ _ hx with hin | hsc
      · split at hin
        · split at hin
          · exact Or.inl hin
          · rcases List.mem_append.mp hin with hin | hin
            · exact Or.inl hin
            · rcases List.mem_singleton.mp hin with rfl
              exact Or.inr rfl
        · exact Or.inl hin
      · exact Or.inr hsc
    · exact Or.inl hx

theorem mem_insertByConfidenceDesc (x y : Suggestion) (l : List Suggestion) :
    y ∈ insertByConfidenceDesc x l ↔ y = x ∨ y ∈ l := by
  induction l with
  | nil => simp [insertByConfidenceDesc]
  | cons a l ih =>
    unfold insertByConfidenceDesc
    split
    · rw [List.mem_cons, ih, List.mem_cons]
      tauto
    · simp [List.mem_cons]

theorem sortedDesc_insertByConfidenceDesc (x : Suggestion) (l : List Suggestion)
    (h : List.Pairwise (fun a b => b.confidence_score ≤ a.confidence_score) l) :
    List.Pairwise (fun a b => b.confidence_score ≤ a.confidence_score)
      (insertByConfidenceDesc x l) := by
  induction l with
  | nil => simp [insertByConfidenceDesc]
  | cons a l ih =>
    rcases List.pairwise_cons.mp h with ⟨ha, hl⟩
    unfold insertByConfidenceDesc
    split
    · rename_i hxa
      refine List.pairwise_cons.mpr ⟨?_, ih hl⟩
      intro b hb
      rcases (mem_insertByConfidenceDesc x b l).mp hb with rfl | hb
      · exact hxa
      · exact ha b hb
    · rename_i hxa
      push_neg at hxa
      refine List.pairwise_cons.mpr ⟨?_, h⟩
      intro b hb
      rcases List.mem_cons.mp hb with rfl | hb
      · exact le_of_lt hxa
      · exact le_trans (ha b hb) (le_of_lt hxa)

theorem mem_sortByConfidenceDesc (l : List Suggestion) (x : Suggestion) :
    x ∈ sortByConfidenceDesc l ↔ x ∈ l := by
  suffices h : ∀ acc, (x ∈ l.foldl (fun acc y => insertByConfidenceDesc y acc) acc ↔
      x ∈ acc ∨ x ∈ l) by
    simpa [sortByConfidenceDesc] using h []
  induction l with
  | nil =>
    intro acc
    simp
  | cons a l ih =>
    intro acc
    rw [List.foldl_cons, ih, mem_insertByConfidenceDesc, List.mem_cons]
    tauto

theorem sortedDesc_sortByConfidenceDesc (l : List Suggestion) :
    List.Pairwise (fun a b => b.confidence_score ≤ a.confidence_score)
      (sortByConfidenceDesc l) := by
  suffices h : ∀ acc,
      List.Pairwise (fun a b => b.confidence_score ≤ a.confidence_score) acc →
      List.Pairwise (fun a b => b.confidence_score ≤ a.confidence_score)
        (l.foldl (fun acc y => insertByConfidenceDesc y acc) acc) by
    exact h [] (by simp)
  induction l with
  | nil =>
    intro acc hacc
    simpa using hacc
  | cons a l ih =>
    intro acc hacc
    exact ih _ (sortedDesc_insertByConfidenceDesc a acc hacc)

/-- C9: with a preferences row present, every confidence score returned by
the suggestion path equals the product of the time-of-day, weekday,
advance-notice and local-density weights capped at 1.0, and the result is
at most 10 suggestions in descending score order. -/
theorem suggestion_scoring (s : State) (specialist_id : Nat) (now : Int)
    (query : AvailabilityQuery) (p : SchedulingPreferencesRow)
    (hp : prefsOf s specialist_id = some p) :
    (∀ sug ∈ generate_smart_availability_suggestions s specialist_id now query,
      sug.confidence_score =
        min (timeOfDayWeight sug.suggested_datetime *
          weekdayWeight sug.suggested_datetime *
          advanceNoticeWeight now sug.suggested_datetime p *
          densityWeight s.calendar_events specialist_id sug.suggested_datetime) 1) ∧
    (generate_smart_availability_suggestions s specialist_id now query).length ≤ 10 ∧
    List.Pairwise (fun a b => b.confidence_score ≤ a.confidence_score)
      (generate_smart_availability_suggestions s specialist_id now query) := by
  refine ⟨?_, ?_, ?_⟩
  · intro sug hsug
    simp only [generate_smart_availability_suggestions, hp] at hsug
    have hmem := List.mem_of_mem_take hsug
    rw [mem_sortByConfidenceDesc] at hmem
    rcases mem_suggestLoop s.calendar_events (workingHoursOf s specialist_id)
        (some p) specialist_id now query _ _ _ _ hmem with h0 | hsc
    · cases h0
    · rw [hsc, confidence_score_eq_weights]
  · simp only [generate_smart_availability_suggestions]
    exact List.length_take_le 10 _
  · simp only [generate_smart_availability_suggestions]
    exact List.Pairwise.sublist (List.take_sublist _ _)
      (sortedDesc_sortByConfidenceDesc _)

def c9Prefs : SchedulingPreferencesRow :=
  { specialist_id := 1, is_active := true, min_booking_notice := 60
    slot_increment := 30 }

def c9State : State :=
  { specialists := [1], services := [], availability_slots := []
    calendar_events := [], bookings := [], consumers := [], referrals := []
    client_profiles := []
    working_hours := [{ specialist_id := 1, day_of_week := 0
                        time_ranges := [(some 540, some 1020)]
                        is_working_day := true, is_active := true }]
    scheduling_preferences := [c9Prefs] }

def c9Query : AvailabilityQuery :=
  { start_datetime := minutesAt 2025 1 6 9 0
    end_datetime := minutesAt 2025 1 6 11 0
    duration_minutes := 60 }

/-- Witness: at a concrete state with a preferences row, the suggestion
list has at most 10 entries and is sorted by descending confidence. -/
theorem suggestion_scoring_witness :
    (generate_smart_availability_suggestions c9State 1 (minutesAt 2025 1 5 9 0)
      c9Query).length ≤ 10 ∧
    List.Pairwise (fun a b => b.confidence_score ≤ a.confidence_score)
      (generate_smart_availability_suggestions c9State 1 (minutesAt 2025 1 5 9 0)
        c9Query) :=
  ⟨(suggestion_scoring c9State 1 (minutesAt 2025 1 5 9 0) c9Query c9Prefs
      (by decide)).2.1,
   (suggestion_scoring c9State 1 (minutesAt 2025 1 5 9 0) c9Query c9Prefs
      (by decide)).2.2⟩

end Sched
